import Mathlib

/-!
# Verification of the OpenAlex worker core

A shallow embedding of the query-construction and request-dispatch path of
the OpenAlex Cloudflare worker:

* `QueryBuilder` (src/utils/query-builder.ts): URL construction over a
  `URLSearchParams`-style ordered key/value list with `set` semantics.
* `OpenAlexFetcher` (src/utils/fetcher.ts): the HTTP fetch wrapper with
  timeout, abort, and error classification, modelled as a function of the
  single network event each call observes.
* The entity handlers (src/handlers/entity-handler.ts): the polite-pool
  mailto resolution and the autocomplete parameter check.

JavaScript truthiness of optional strings and numbers is modelled by
`truthyS` and `truthyN`; machine floats never overflow on the small integer
parameters involved, so numbers are `Int`.
-/

/-- JS truthiness of an optional string: `undefined` and `""` are falsy. -/
def truthyS : Option String → Bool
  | some s => s ≠ ""
  | none => false

/-- JS truthiness of an optional number: `undefined` and `0` are falsy. -/
def truthyN : Option Int → Bool
  | some n => n ≠ 0
  | none => false

/-- `URLSearchParams.set`: replace the first occurrence of the key (dropping
any later ones), or append at the end when the key is absent. -/
def setFirst : List (String × String) → String → String → List (String × String)
  | [], k, v => [(k, v)]
  | p :: ps, k, v =>
      if p.1 == k then (k, v) :: ps.filter (fun q => !(q.1 == k))
      else p :: setFirst ps k v

/-- Number of pairs with the given key. -/
def countKey (ps : List (String × String)) (k : String) : Nat :=
  (ps.filter (fun p => p.1 == k)).length

/-- Whether some pair with the given key is present. -/
def hasKey (ps : List (String × String)) (k : String) : Bool :=
  ps.any (fun p => p.1 == k)

/-- Value of the first pair with the given key, if any. -/
def getVal (ps : List (String × String)) (k : String) : Option String :=
  (ps.find? (fun p => p.1 == k)).map (·.2)

/-- Uppercase hex digit. -/
def hexDigit (n : Nat) : Char :=
  if n < 10 then Char.ofNat (48 + n) else Char.ofNat (55 + n)

/-- The UTF-8 bytes of a character, as byte values. -/
def utf8Bytes (c : Char) : List Nat :=
  let n := c.toNat
  if n < 0x80 then [n]
  else if n < 0x800 then [0xC0 + n / 0x40, 0x80 + n % 0x40]
  else if n < 0x10000 then
    [0xE0 + n / 0x1000, 0x80 + (n / 0x40) % 0x40, 0x80 + n % 0x40]
  else
    [0xF0 + n / 0x40000, 0x80 + (n / 0x1000) % 0x40, 0x80 + (n / 0x40) % 0x40,
      0x80 + n % 0x40]

/-- `application/x-www-form-urlencoded` serialization of one UTF-8 byte, as
performed by `URLSearchParams.toString()`: alphanumerics and `*-._` are kept,
space becomes `+`, everything else is percent-encoded. -/
def formEncodeByte (n : Nat) : String :=
  if (48 ≤ n ∧ n ≤ 57) ∨ (65 ≤ n ∧ n ≤ 90) ∨ (97 ≤ n ∧ n ≤ 122)
      ∨ n = 42 ∨ n = 45 ∨ n = 46 ∨ n = 95 then
    String.singleton (Char.ofNat n)
  else if n = 32 then "+"
  else "%" ++ String.singleton (hexDigit (n / 16)) ++ String.singleton (hexDigit (n % 16))

/-- Form-encode a string byte by byte over its UTF-8 representation. -/
def formEncode (s : String) : String :=
  String.join (s.data.map (fun c => String.join ((utf8Bytes c).map formEncodeByte)))

/-- `URLSearchParams.toString()`: pairs rendered `k=v` (form-encoded) and
joined with `&`. -/
def renderParams (ps : List (String × String)) : String :=
  String.intercalate "&" (ps.map (fun p => formEncode p.1 ++ "=" ++ formEncode p.2))

/-- The nine recognized entity collections. -/
inductive EntityType
  | works | authors | sources | institutions | topics
  | publishers | funders | keywords | geo
deriving DecidableEq, Repr

def entityTypeStr : EntityType → String
  | .works => "works" | .authors => "authors" | .sources => "sources"
  | .institutions => "institutions" | .topics => "topics"
  | .publishers => "publishers" | .funders => "funders"
  | .keywords => "keywords" | .geo => "geo"

def OPENALEX_BASE_URL : String := "https://api.openalex.org"

/-- `QueryParams` (src/types/openalex.ts): the optional query options. -/
structure QueryParams where
  filter : Option String := none
  search : Option String := none
  sort : Option String := none
  page : Option Int := none
  per_page : Option Int := none
  cursor : Option String := none
  select : Option String := none
  sample : Option Int := none
  seed : Option Int := none
  group_by : Option String := none
  mailto : Option String := none
deriving DecidableEq, Repr

namespace QueryBuilder

/-- The constructor's base URL: entity path, plus `/id` when a truthy
entity id is given. -/
def baseUrl (entityType : EntityType) (entityId : Option String) : String :=
  if truthyS entityId then
    OPENALEX_BASE_URL ++ "/" ++ entityTypeStr entityType ++ "/" ++ entityId.getD ""
  else
    OPENALEX_BASE_URL ++ "/" ++ entityTypeStr entityType

/-- `filter(filterString)`: set `filter` when the string is truthy. -/
def filter (ps : List (String × String)) (filterString : String) : List (String × String) :=
  if filterString ≠ "" then setFirst ps "filter" filterString else ps

/-- `search(searchTerm)`: set `search` when the string is truthy. -/
def search (ps : List (String × String)) (searchTerm : String) : List (String × String) :=
  if searchTerm ≠ "" then setFirst ps "search" searchTerm else ps

/-- `sort(sortField)`: set `sort` when the string is truthy. -/
def sort (ps : List (String × String)) (sortField : String) : List (String × String) :=
  if sortField ≠ "" then setFirst ps "sort" sortField else ps

/-- `page(pageNumber, perPage?)`: set `page` when the number is truthy, and
`per-page` when the optional second argument is truthy. -/
def page (ps : List (String × String)) (pageNumber : Int) (perPage : Option Int) :
    List (String × String) :=
  let ps1 := if pageNumber ≠ 0 then setFirst ps "page" (toString pageNumber) else ps
  match perPage with
  | some l => if l ≠ 0 then setFirst ps1 "per-page" (toString l) else ps1
  | none => ps1

/-- `perPage(limit)`: set `per-page` when the number is truthy. -/
def perPage (ps : List (String × String)) (limit : Int) : List (String × String) :=
  if limit ≠ 0 then setFirst ps "per-page" (toString limit) else ps

/-- `cursor(cursorValue)`: set `cursor` when the string is truthy. -/
def cursor (ps : List (String × String)) (cursorValue : String) : List (String × String) :=
  if cursorValue ≠ "" then setFirst ps "cursor" cursorValue else ps

/-- `select(fields)`: set `select` when the string is truthy. -/
def select (ps : List (String × String)) (fields : String) : List (String × String) :=
  if fields ≠ "" then setFirst ps "select" fields else ps

/-- `sample(size, seed?)`: set `sample` when the size is truthy; set `seed`
whenever the seed argument is not `undefined` — including `0`. -/
def sample (ps : List (String × String)) (size : Int) (seed : Option Int) :
    List (String × String) :=
  let ps1 := if size ≠ 0 then setFirst ps "sample" (toString size) else ps
  match seed with
  | some s => setFirst ps1 "seed" (toString s)
  | none => ps1

/-- `groupBy(field)`: set `group_by` when the string is truthy. -/
def groupBy (ps : List (String × String)) (field : String) : List (String × String) :=
  if field ≠ "" then setFirst ps "group_by" field else ps

/-- `mailto(email)`: set `mailto` when the string is truthy. -/
def mailto (ps : List (String × String)) (email : String) : List (String × String) :=
  if email ≠ "" then setFirst ps "mailto" email else ps

/-- `build()`: append `?` and the rendered parameters when nonempty. -/
def build (entityType : EntityType) (entityId : Option String)
    (ps : List (String × String)) : String :=
  let paramString := renderParams ps
  if paramString ≠ "" then baseUrl entityType entityId ++ "?" ++ paramString
  else baseUrl entityType entityId

/-- The parameter list accumulated by `buildFromParams`: each option is
applied through its guarded builder method, in source order. -/
def buildFromParamsPairs (qp : QueryParams) : List (String × String) :=
  let ps : List (String × String) := []
  let ps := if truthyS qp.filter then filter ps (qp.filter.getD "") else ps
  let ps := if truthyS qp.search then search ps (qp.search.getD "") else ps
  let ps := if truthyS qp.sort then sort ps (qp.sort.getD "") else ps
  let ps := if truthyN qp.page then page ps (qp.page.getD 0) qp.per_page else ps
  let ps := if truthyN qp.per_page && !truthyN qp.page then perPage ps (qp.per_page.getD 0) else ps
  let ps := if truthyS qp.cursor then cursor ps (qp.cursor.getD "") else ps
  let ps := if truthyS qp.select then select ps (qp.select.getD "") else ps
  let ps := if truthyN qp.sample then sample ps (qp.sample.getD 0) qp.seed else ps
  let ps := if truthyS qp.group_by then groupBy ps (qp.group_by.getD "") else ps
  let ps := if truthyS qp.mailto then mailto ps (qp.mailto.getD "") else ps
  ps

/-- `buildFromParams(entityType, queryParams, entityId?)`: the final URL. -/
def buildFromParams (entityType : EntityType) (qp : QueryParams)
    (entityId : Option String) : String :=
  build entityType entityId (buildFromParamsPairs qp)

end QueryBuilder

/-! ## Canonical form of `buildFromParams`

Every key is set at most once along the `buildFromParams` pipeline and all
keys are distinct, so each `URLSearchParams.set` is an append; the pipeline
is equal to a concatenation of conditional singletons. -/

/-- A conditional singleton parameter list. -/
def optPair (c : Bool) (k v : String) : List (String × String) :=
  if c then [(k, v)] else []

/-- The parameter list `buildFromParams` produces, written directly as a
concatenation of conditional singletons. -/
def canonicalPairs (qp : QueryParams) : List (String × String) :=
  optPair (truthyS qp.filter) "filter" (qp.filter.getD "")
  ++ optPair (truthyS qp.search) "search" (qp.search.getD "")
  ++ optPair (truthyS qp.sort) "sort" (qp.sort.getD "")
  ++ optPair (truthyN qp.page) "page" (toString (qp.page.getD 0))
  ++ optPair (truthyN qp.per_page) "per-page" (toString (qp.per_page.getD 0))
  ++ optPair (truthyS qp.cursor) "cursor" (qp.cursor.getD "")
  ++ optPair (truthyS qp.select) "select" (qp.select.getD "")
  ++ optPair (truthyN qp.sample) "sample" (toString (qp.sample.getD 0))
  ++ optPair (truthyN qp.sample && qp.seed.isSome) "seed" (toString (qp.seed.getD 0))
  ++ optPair (truthyS qp.group_by) "group_by" (qp.group_by.getD "")
  ++ optPair (truthyS qp.mailto) "mailto" (qp.mailto.getD "")

theorem hasKey_nil (k : String) : hasKey [] k = false := rfl

theorem hasKey_append (ps qs : List (String × String)) (k : String) :
    hasKey (ps ++ qs) k = (hasKey ps k || hasKey qs k) := by
  simp [hasKey, List.any_append]

theorem hasKey_optPair (c : Bool) (k v k' : String) :
    hasKey (optPair c k v) k' = (c && (k == k')) := by
  cases c <;> simp [optPair, hasKey]

theorem setFirst_eq_append (ps : List (String × String)) (k v : String)
    (h : hasKey ps k = false) : setFirst ps k v = ps ++ [(k, v)] := by
  induction ps with
  | nil => rfl
  | cons p ps ih =>
      simp only [hasKey, List.any_cons, Bool.or_eq_false_iff] at h
      simp [setFirst, h.1, ih h.2]

theorem countKey_append (ps qs : List (String × String)) (k : String) :
    countKey (ps ++ qs) k = countKey ps k + countKey qs k := by
  simp [countKey, List.filter_append]

theorem countKey_optPair (c : Bool) (k v k' : String) :
    countKey (optPair c k v) k' = if c && (k == k') then 1 else 0 := by
  cases c <;> cases h : k == k' <;> simp [optPair, countKey, h]

theorem getVal_append (ps qs : List (String × String)) (k : String) :
    getVal (ps ++ qs) k =
      (match getVal ps k with
       | some v => some v
       | none => getVal qs k) := by
  induction ps with
  | nil => simp [getVal]
  | cons p ps ih =>
      by_cases h : p.1 == k
      · simp [getVal, List.find?, h]
      · simp only [getVal, List.cons_append, List.find?] at *
        simp only [h] at *
        exact ih

theorem getVal_optPair (c : Bool) (k v k' : String) :
    getVal (optPair c k v) k' = if c && (k == k') then some v else none := by
  cases c <;> cases h : k == k' <;> simp [optPair, getVal, List.find?, h]

/-- A guarded string option step (outer `buildFromParams` truthiness guard
plus the builder method's own guard) appends one conditional singleton. -/
theorem guardStrStep (o : Option String) (ps : List (String × String)) (k : String)
    (h : hasKey ps k = false) :
    (if truthyS o then (if (o.getD "") ≠ "" then setFirst ps k (o.getD "") else ps) else ps)
      = ps ++ optPair (truthyS o) k (o.getD "") := by
  cases o with
  | none => simp [truthyS, optPair]
  | some s =>
      by_cases hs : s = ""
      · simp [truthyS, hs, optPair]
      · simp [truthyS, hs, optPair, setFirst_eq_append _ _ _ h]

/-- The combined effect of the `page`/`perPage` branch pair in
`buildFromParams` on a list containing neither key. -/
theorem pageSteps (p q : Option Int) (ps : List (String × String))
    (h1 : hasKey ps "page" = false) (h2 : hasKey ps "per-page" = false) :
    (if truthyN q && !truthyN p then
        QueryBuilder.perPage
          (if truthyN p then QueryBuilder.page ps (p.getD 0) q else ps) (q.getD 0)
      else (if truthyN p then QueryBuilder.page ps (p.getD 0) q else ps))
      = ps ++ optPair (truthyN p) "page" (toString (p.getD 0))
          ++ optPair (truthyN q) "per-page" (toString (q.getD 0)) := by
  have hpp : ∀ v, hasKey (ps ++ [("page", v)]) "per-page" = false := fun v => by
    rw [hasKey_append, h2]; simp [hasKey]
  cases p with
  | none =>
      cases q with
      | none => simp [truthyN, optPair]
      | some m =>
          by_cases hm : m = 0
          · simp [truthyN, hm, optPair]
          · simp [truthyN, hm, optPair, QueryBuilder.perPage,
              setFirst_eq_append _ _ _ h2]
  | some n =>
      by_cases hn : n = 0
      · cases q with
        | none => simp [truthyN, hn, optPair]
        | some m =>
            by_cases hm : m = 0
            · simp [truthyN, hn, hm, optPair]
            · simp [truthyN, hn, hm, optPair, QueryBuilder.perPage,
                setFirst_eq_append _ _ _ h2]
      · cases q with
        | none =>
            simp [truthyN, hn, optPair, QueryBuilder.page,
              setFirst_eq_append _ _ _ h1]
        | some m =>
            by_cases hm : m = 0
            · simp [truthyN, hn, hm, optPair, QueryBuilder.page,
                setFirst_eq_append _ _ _ h1]
            · simp [truthyN, hn, hm, optPair, QueryBuilder.page,
                setFirst_eq_append _ _ _ h1, setFirst_eq_append _ _ _ (hpp _)]

/-- The effect of the guarded `sample` step in `buildFromParams` on a list
containing neither `sample` nor `seed`: the seed is only reachable through a
truthy sample size. -/
theorem sampleStep (sz sd : Option Int) (ps : List (String × String))
    (h1 : hasKey ps "sample" = false) (h2 : hasKey ps "seed" = false) :
    (if truthyN sz then QueryBuilder.sample ps (sz.getD 0) sd else ps)
      = ps ++ optPair (truthyN sz) "sample" (toString (sz.getD 0))
          ++ optPair (truthyN sz && sd.isSome) "seed" (toString (sd.getD 0)) := by
  have hsd : ∀ v, hasKey (ps ++ [("sample", v)]) "seed" = false := fun v => by
    rw [hasKey_append, h2]; simp [hasKey]
  cases sz with
  | none => simp [truthyN, optPair]
  | some n =>
      by_cases hn : n = 0
      · simp [truthyN, hn, optPair]
      · cases sd with
        | none =>
            simp [truthyN, hn, optPair, QueryBuilder.sample,
              setFirst_eq_append _ _ _ h1]
        | some s =>
            simp [truthyN, hn, optPair, QueryBuilder.sample,
              setFirst_eq_append _ _ _ h1, setFirst_eq_append _ _ _ (hsd _)]

/-- The `buildFromParams` pipeline equals the canonical concatenation of
conditional singleton parameters. -/
theorem buildFromParamsPairs_eq_canonical (qp : QueryParams) :
    QueryBuilder.buildFromParamsPairs qp = canonicalPairs qp := by
  simp only [QueryBuilder.buildFromParamsPairs, QueryBuilder.filter,
    QueryBuilder.search, QueryBuilder.sort, QueryBuilder.cursor,
    QueryBuilder.select, QueryBuilder.groupBy, QueryBuilder.mailto]
  rw [guardStrStep qp.filter [] "filter" rfl]
  rw [guardStrStep qp.search _ "search"
    (by simp [hasKey_append, hasKey_optPair])]
  rw [guardStrStep qp.sort _ "sort"
    (by simp [hasKey_append, hasKey_optPair])]
  rw [pageSteps qp.page qp.per_page _
    (by simp [hasKey_append, hasKey_optPair])
    (by simp [hasKey_append, hasKey_optPair])]
  rw [guardStrStep qp.cursor _ "cursor"
    (by simp [hasKey_append, hasKey_optPair])]
  rw [guardStrStep qp.select _ "select"
    (by simp [hasKey_append, hasKey_optPair])]
  rw [sampleStep qp.sample qp.seed _
    (by simp [hasKey_append, hasKey_optPair])
    (by simp [hasKey_append, hasKey_optPair])]
  rw [guardStrStep qp.group_by _ "group_by"
    (by simp [hasKey_append, hasKey_optPair])]
  rw [guardStrStep qp.mailto _ "mailto"
    (by simp [hasKey_append, hasKey_optPair])]
  simp [canonicalPairs, List.append_assoc]

/-! ## Claims about the parameter normalizer -/

/-- C1 (counterexample): a seed supplied without a sample size does NOT
appear in the URL built by `buildFromParams` — the `sample` guard in
`buildFromParams` skips the `sample(size, seed)` call entirely, dropping the
seed, contrary to the claim. -/
theorem buildFromParams_seed_without_sample_dropped :
    ({ seed := some 5 } : QueryParams).seed.isSome = true
    ∧ hasKey (QueryBuilder.buildFromParamsPairs { seed := some 5 }) "seed" = false
    ∧ QueryBuilder.buildFromParams .works { seed := some 5 } none
        = "https://api.openalex.org/works" := by decide

/-- C1 (amended): the URL built by `buildFromParams` contains a `seed`
parameter iff the seed field is explicitly supplied (including `seed = 0`)
AND the sample field is supplied and nonzero; in particular, for
`sample = 10` with `seed = 0` both parameters appear. -/
theorem buildFromParams_seed_iff_sample_and_seed :
    (∀ qp : QueryParams, hasKey (QueryBuilder.buildFromParamsPairs qp) "seed"
        = (truthyN qp.sample && qp.seed.isSome))
    ∧ hasKey (QueryBuilder.buildFromParamsPairs { sample := some 10, seed := some 0 }) "sample"
        = true
    ∧ hasKey (QueryBuilder.buildFromParamsPairs { sample := some 10, seed := some 0 }) "seed"
        = true := by
  refine ⟨fun qp => ?_, by decide, by decide⟩
  rw [buildFromParamsPairs_eq_canonical]
  simp [canonicalPairs, hasKey_append, hasKey_optPair]

/-- C3 (counterexample): with `sample = 10, seed = 0` the built parameter
list contains the pair `seed=0`, although the seed field is falsy (zero) —
so a zero-value parameter does appear in the output, contrary to the claim. -/
theorem buildFromParams_zero_seed_emitted :
    truthyN (({ sample := some 10, seed := some 0 } : QueryParams).seed) = false
    ∧ countKey (QueryBuilder.buildFromParamsPairs { sample := some 10, seed := some 0 }) "seed" = 1
    ∧ getVal (QueryBuilder.buildFromParamsPairs { sample := some 10, seed := some 0 }) "seed"
        = some "0" := by decide

/-- C3 (amended): for every option field except `seed`, the built parameter
list contains exactly one pair for the field when it is present and
non-empty/non-zero, and no pair when it is absent or falsy; the `seed` pair
appears exactly once iff the seed is supplied AND the sample size is
nonzero — including `seed = 0`, so a zero-value seed parameter can appear. -/
theorem buildFromParams_param_multiplicity :
    ∀ qp : QueryParams,
      countKey (QueryBuilder.buildFromParamsPairs qp) "filter"
          = (if truthyS qp.filter then 1 else 0)
      ∧ countKey (QueryBuilder.buildFromParamsPairs qp) "search"
          = (if truthyS qp.search then 1 else 0)
      ∧ countKey (QueryBuilder.buildFromParamsPairs qp) "sort"
          = (if truthyS qp.sort then 1 else 0)
      ∧ countKey (QueryBuilder.buildFromParamsPairs qp) "page"
          = (if truthyN qp.page then 1 else 0)
      ∧ countKey (QueryBuilder.buildFromParamsPairs qp) "per-page"
          = (if truthyN qp.per_page then 1 else 0)
      ∧ countKey (QueryBuilder.buildFromParamsPairs qp) "cursor"
          = (if truthyS qp.cursor then 1 else 0)
      ∧ countKey (QueryBuilder.buildFromParamsPairs qp) "select"
          = (if truthyS qp.select then 1 else 0)
      ∧ countKey (QueryBuilder.buildFromParamsPairs qp) "sample"
          = (if truthyN qp.sample then 1 else 0)
      ∧ countKey (QueryBuilder.buildFromParamsPairs qp) "seed"
          = (if truthyN qp.sample && qp.seed.isSome then 1 else 0)
      ∧ countKey (QueryBuilder.buildFromParamsPairs qp) "group_by"
          = (if truthyS qp.group_by then 1 else 0)
      ∧ countKey (QueryBuilder.buildFromParamsPairs qp) "mailto"
          = (if truthyS qp.mailto then 1 else 0) := by
  intro qp
  rw [buildFromParamsPairs_eq_canonical]
  simp [canonicalPairs, countKey_append, countKey_optPair]

/-- C6: the built query contains a `page` pair exactly when a nonzero page
number is supplied, and a `per-page` pair exactly when a nonzero perPage is
supplied — so `page=2, perPage=50` yields both pairs, and `perPage=50` alone
yields only the page-size pair and no page pair. -/
theorem buildFromParams_page_perPage_presence :
    (∀ qp : QueryParams,
      hasKey (QueryBuilder.buildFromParamsPairs qp) "page" = truthyN qp.page
      ∧ hasKey (QueryBuilder.buildFromParamsPairs qp) "per-page" = truthyN qp.per_page)
    ∧ hasKey (QueryBuilder.buildFromParamsPairs { page := some 2, per_page := some 50 }) "page"
        = true
    ∧ hasKey (QueryBuilder.buildFromParamsPairs { page := some 2, per_page := some 50 }) "per-page"
        = true
    ∧ hasKey (QueryBuilder.buildFromParamsPairs { per_page := some 50 }) "per-page" = true
    ∧ hasKey (QueryBuilder.buildFromParamsPairs { per_page := some 50 }) "page" = false := by
  refine ⟨fun qp => ⟨?_, ?_⟩, by decide, by decide, by decide, by decide⟩ <;>
    rw [buildFromParamsPairs_eq_canonical] <;>
    simp [canonicalPairs, hasKey_append, hasKey_optPair]

/-- C7: building a list URL for `works` with
`{search: "machine learning", perPage: 3}` yields exactly the two pairs
`search=machine+learning` (space form-encoded as `+`) and `per-page=3` and
no other pairs. -/
theorem buildFromParams_search_perPage_url :
    QueryBuilder.buildFromParams .works { search := some "machine learning", per_page := some 3 }
        none
      = "https://api.openalex.org/works?search=machine+learning&per-page=3"
    ∧ QueryBuilder.buildFromParamsPairs { search := some "machine learning", per_page := some 3 }
      = [("search", "machine learning"), ("per-page", "3")] := by decide

/-! ## The fetcher (src/utils/fetcher.ts)

`OpenAlexFetcher.fetch` performs one network call per invocation. Each call
observes exactly one network event: the underlying `fetch` resolves with a
response (whose body may or may not parse as JSON), the timeout fires and
aborts the call, or `fetch` rejects with some other error. The embedding is
a function of that event, tracking whether `clearTimeout` was reached,
whether the abort fired, and how many network calls were dispatched. -/

/-- `OpenAlexError` (src/utils/fetcher.ts): message, optional status code,
optional raw response body. -/
structure OpenAlexError where
  message : String
  statusCode : Option Nat := none
  responseBody : Option String := none
deriving DecidableEq, Repr

/-- The single network event one `fetch` call observes. `responds` carries
the HTTP status, status text and raw body text, and `jsonErr` is the parse
error message when the body is not valid JSON (`none` when it parses).
`timeoutFired` means no response arrived in time, so the timer ran
`controller.abort()` and the in-flight `fetch` rejected with an
`AbortError`. `rejects` is any other rejection of the underlying `fetch`
(DNS failure, connection reset, ...), carrying the JS error's name and
message. -/
inductive FetchEvent
  | responds (status : Nat) (statusText : String) (bodyText : String) (jsonErr : Option String)
  | timeoutFired
  | rejects (name : String) (msg : String)
deriving DecidableEq, Repr

/-- A value thrown inside the `try` block: either the typed `OpenAlexError`
thrown on a non-2xx response, or a plain JS `Error` with a name. -/
inductive Thrown
  | openAlex (e : OpenAlexError)
  | jsError (name : String) (msg : String)
deriving DecidableEq, Repr

/-- Result of the `try` block: the value returned or thrown, whether
`clearTimeout(timeoutId)` was executed, and whether the abort fired. -/
structure TryResult where
  result : Except Thrown String
  timerCleared : Bool
  aborted : Bool

/-- The `try` block of `OpenAlexFetcher.fetch`: schedule the timeout, await
`fetch`, then `clearTimeout`; on a non-2xx response read the body and throw
an `OpenAlexError`; otherwise parse JSON (whose failure throws a JS
`SyntaxError`). When `fetch` itself rejects, the `clearTimeout` line is
never reached. -/
def tryBlock (ev : FetchEvent) : TryResult :=
  match ev with
  | .responds status statusText bodyText jsonErr =>
      if ¬(200 ≤ status ∧ status ≤ 299) then
        { result := .error (.openAlex
            { message := "OpenAlex API error: " ++ statusText,
              statusCode := some status, responseBody := some bodyText }),
          timerCleared := true, aborted := false }
      else
        match jsonErr with
        | none => { result := .ok bodyText, timerCleared := true, aborted := false }
        | some e => { result := .error (.jsError "SyntaxError" e),
                      timerCleared := true, aborted := false }
  | .timeoutFired =>
      { result := .error (.jsError "AbortError" "This operation was aborted"),
        timerCleared := false, aborted := true }
  | .rejects name msg =>
      { result := .error (.jsError name msg), timerCleared := false, aborted := false }

/-- Overall result of one `OpenAlexFetcher.fetch` call. -/
structure FetchResult where
  outcome : Except OpenAlexError String
  timerCleared : Bool
  aborted : Bool
  networkCalls : Nat

namespace OpenAlexFetcher

/-- The constructor: `options.timeout || 30000` (a zero timeout is falsy and
also falls back to the 30000 ms default). -/
def mkTimeout (o : Option Nat) : Nat :=
  match o with
  | some t => if t ≠ 0 then t else 30000
  | none => 30000

/-- `OpenAlexFetcher.fetch`: run the `try` block on the observed network
event, then apply the `catch` clause — rethrow `OpenAlexError` unchanged,
map an `AbortError` to the timeout error (message only), and wrap any other
`Error` into `Request failed: ...` (message only). Exactly one network call
is dispatched; there is no retry. -/
def fetch (timeout : Nat) (ev : FetchEvent) : FetchResult :=
  let t := tryBlock ev
  let outcome : Except OpenAlexError String :=
    match t.result with
    | .ok data => .ok data
    | .error (.openAlex e) => .error e
    | .error (.jsError name msg) =>
        if name = "AbortError" then
          .error { message := "Request timeout after " ++ toString timeout ++ "ms" }
        else
          .error { message := "Request failed: " ++ msg }
  { outcome := outcome, timerCleared := t.timerCleared, aborted := t.aborted,
    networkCalls := 1 }

end OpenAlexFetcher

/-! ## Claims about the request dispatcher -/

/-- C2 (code evaluated at the failing input): when the underlying `fetch`
rejects with a network error, `clearTimeout` is never reached — the
`clearTimeout(timeoutId)` line sits after the `await fetch(...)` and the
`catch` block does not clear the timer, so the timer stays pending. The
response paths (success and non-2xx) do clear it, and on the abort path the
timer has already fired. -/
theorem fetch_timer_cleared_only_on_response_paths :
    (OpenAlexFetcher.fetch 30000 (.rejects "TypeError" "fetch failed")).timerCleared = false
    ∧ (OpenAlexFetcher.fetch 30000 .timeoutFired).timerCleared = false
    ∧ (OpenAlexFetcher.fetch 30000 (.responds 200 "OK" "\x7b\x7d" none)).timerCleared = true
    ∧ (OpenAlexFetcher.fetch 30000 (.responds 404 "Not Found" "err" none)).timerCleared
        = true := by
  refine ⟨rfl, rfl, ?_, ?_⟩ <;> simp [OpenAlexFetcher.fetch, tryBlock]

/-- C4: a non-2xx response makes `fetch` fail with an `OpenAlexError` whose
status code is the response's status, whose message contains the status
text, and whose `responseBody` is the raw body text; exactly one network
call is dispatched (no retry). -/
theorem fetch_non2xx_upstream_error (timeout status : Nat)
    (statusText bodyText : String) (jsonErr : Option String)
    (h : ¬(200 ≤ status ∧ status ≤ 299)) :
    (OpenAlexFetcher.fetch timeout (.responds status statusText bodyText jsonErr)).outcome
      = .error { message := "OpenAlex API error: " ++ statusText,
                 statusCode := some status, responseBody := some bodyText }
    ∧ (∃ pre post, "OpenAlex API error: " ++ statusText = pre ++ statusText ++ post)
    ∧ (OpenAlexFetcher.fetch timeout
        (.responds status statusText bodyText jsonErr)).networkCalls = 1 := by
  refine ⟨?_, ⟨"OpenAlex API error: ", "", by simp⟩, rfl⟩
  simp [OpenAlexFetcher.fetch, tryBlock, h]

/-- C4 witness: HTTP 404 with body `\x7b"error":"not found"\x7d` yields an
error exposing status code 404 and that raw body. -/
theorem fetch_non2xx_upstream_error_witness :
    (OpenAlexFetcher.fetch 30000
        (.responds 404 "Not Found" "\x7b\"error\":\"not found\"\x7d" none)).outcome
      = .error { message := "OpenAlex API error: Not Found", statusCode := some 404,
                 responseBody := some "\x7b\"error\":\"not found\"\x7d" } :=
  (fetch_non2xx_upstream_error 30000 404 "Not Found" "\x7b\"error\":\"not found\"\x7d" none
    (by decide)).1

/-- C5: when the timeout fires, the in-flight request is aborted and `fetch`
fails with the timeout-specific message carrying no status code; the
constructor's default timeout is 30000 ms. -/
theorem fetch_timeout_aborts_no_status :
    (∀ timeout : Nat,
      (OpenAlexFetcher.fetch timeout .timeoutFired).aborted = true
      ∧ (OpenAlexFetcher.fetch timeout .timeoutFired).outcome
          = .error { message := "Request timeout after " ++ toString timeout ++ "ms",
                     statusCode := none, responseBody := none })
    ∧ OpenAlexFetcher.mkTimeout none = 30000 := by
  refine ⟨fun timeout => ⟨rfl, ?_⟩, rfl⟩
  simp [OpenAlexFetcher.fetch, tryBlock]

/-- C8: a rejection of the underlying `fetch` other than an abort, and a 2xx
response whose body fails JSON parsing, both surface as a generic
`OpenAlexError` carrying only a message — no status code, no body. -/
theorem fetch_generic_failures_message_only :
    (∀ (timeout : Nat) (name msg : String), name ≠ "AbortError" →
        (OpenAlexFetcher.fetch timeout (.rejects name msg)).outcome
          = .error { message := "Request failed: " ++ msg, statusCode := none,
                     responseBody := none })
    ∧ (∀ (timeout status : Nat) (statusText bodyText e : String),
        200 ≤ status → status ≤ 299 →
        (OpenAlexFetcher.fetch timeout (.responds status statusText bodyText (some e))).outcome
          = .error { message := "Request failed: " ++ e, statusCode := none,
                     responseBody := none }) := by
  constructor
  · intro timeout name msg h
    simp [OpenAlexFetcher.fetch, tryBlock, h]
  · intro timeout status statusText bodyText e h1 h2
    simp [OpenAlexFetcher.fetch, tryBlock, h1, h2]

/-- C8 witness: a `TypeError` network failure and a 2xx non-JSON body both
yield message-only errors. -/
theorem fetch_generic_failures_message_only_witness :
    (OpenAlexFetcher.fetch 30000 (.rejects "TypeError" "fetch failed")).outcome
      = .error { message := "Request failed: fetch failed", statusCode := none,
                 responseBody := none }
    ∧ (OpenAlexFetcher.fetch 30000 (.responds 200 "OK" "not json"
          (some "Unexpected token"))).outcome
      = .error { message := "Request failed: Unexpected token", statusCode := none,
                 responseBody := none } :=
  ⟨fetch_generic_failures_message_only.1 30000 "TypeError" "fetch failed" (by decide),
   fetch_generic_failures_message_only.2 30000 200 "OK" "not json" "Unexpected token"
     (by decide) (by decide)⟩

/-! ## The entity handlers (src/handlers/entity-handler.ts) -/

/-- A JSON value as assembled by the handlers: an object of fields, a
string, a number, or an upstream body passed through opaquely. -/
inductive JsonVal
  | str (s : String)
  | num (n : Int)
  | obj (fields : List (String × JsonVal))
  | upstream (body : String)

/-- A handler response: HTTP status plus the JSON payload passed to
`jsonResponse` (always serialized with the JSON content-type and CORS
headers, which carry no claim-relevant information). -/
structure HandlerResponse where
  status : Nat
  body : JsonVal

/-- `handleError` (src/handlers/entity-handler.ts) restricted to the
`OpenAlexError` branch, the only error our fetch model produces: respond
with `error.statusCode || 500` and a body carrying the message and the
status code (a JSON field is omitted when the value is `undefined`, as
`JSON.stringify` drops it). -/
def handleError (e : OpenAlexError) : HandlerResponse :=
  { status := match e.statusCode with
      | some c => if c ≠ 0 then c else 500
      | none => 500,
    body := .obj ([("error", .str e.message)]
      ++ (match e.statusCode with
          | some c => [("statusCode", .num c)]
          | none => [])) }

/-- Modelled from the spec: `QueryBuilder.buildAutocompleteUrl` is imported
by the entity handler from the query-builder module, but its definition is
not among the provided sources. Per the spec, autocomplete URL construction
"appends a literal `q` parameter" besides the contact identifier, and
building an autocomplete URL for `authors` with query `"darwin"` yields
`.../autocomplete/authors?q=darwin`. -/
def buildAutocompleteUrl (entityType : EntityType) (query : String)
    (mailtoVal : Option String) : String :=
  let ps := setFirst [] "q" query
  let ps := if truthyS mailtoVal then setFirst ps "mailto" (mailtoVal.getD "") else ps
  OPENALEX_BASE_URL ++ "/autocomplete/" ++ entityTypeStr entityType ++ "?" ++ renderParams ps

/-- `handleAutocomplete`: read `q` (defaulting to the empty string) and
`mailto` (falling back to `env.OPENALEX_EMAIL`) from the inbound request's
search parameters; reject a falsy `q` with a 400 error before any upstream
call; otherwise build the autocomplete URL and dispatch one fetch, whose
observed network event the `oracle` supplies. Returns the response and the
list of upstream URLs fetched. -/
def handleAutocomplete (entityType : EntityType) (reqQ : Option String)
    (reqMailto : Option String) (env : Option String)
    (oracle : String → FetchEvent) : HandlerResponse × List String :=
  let query := reqQ.getD ""
  let mailtoVal := if truthyS reqMailto then reqMailto else env
  if query = "" then
    ({ status := 400, body := .obj [("error", .str "Missing required parameter: q")] }, [])
  else
    let apiUrl := buildAutocompleteUrl entityType query mailtoVal
    let r := OpenAlexFetcher.fetch 30000 (oracle apiUrl)
    match r.outcome with
    | .ok data => ({ status := 200, body := .upstream data }, [apiUrl])
    | .error e => (handleError e, [apiUrl])

/-- The polite-pool mailto mutation shared by `handleEntityList` and
`handleSingleEntity`: attach `env.OPENALEX_EMAIL` only when the parsed
query params carry no truthy mailto of their own. -/
def resolveMailto (qpMailto envEmail : Option String) : Option String :=
  if ¬truthyS qpMailto && truthyS envEmail then envEmail else qpMailto

/-- The query params `handleEntityList` passes to `buildFromParams`, after
the polite-pool mutation. -/
def handleEntityListParams (qp : QueryParams) (env : Option String) : QueryParams :=
  { qp with mailto := resolveMailto qp.mailto env }

/-- The query params `handleSingleEntity` passes to `buildFromParams`,
after the same polite-pool mutation. -/
def handleSingleEntityParams (qp : QueryParams) (env : Option String) : QueryParams :=
  { qp with mailto := resolveMailto qp.mailto env }

/-! ## Claims about the handlers -/

/-- C9: an autocomplete request whose `q` parameter is absent or empty gets
a 400 JSON response naming the missing `q` parameter, and no upstream fetch
is dispatched. -/
theorem handleAutocomplete_missing_q_400 (entityType : EntityType)
    (reqQ reqMailto env : Option String) (oracle : String → FetchEvent)
    (h : reqQ = none ∨ reqQ = some "") :
    (handleAutocomplete entityType reqQ reqMailto env oracle).1.status = 400
    ∧ (handleAutocomplete entityType reqQ reqMailto env oracle).1.body
        = .obj [("error", .str "Missing required parameter: q")]
    ∧ (handleAutocomplete entityType reqQ reqMailto env oracle).2 = [] := by
  rcases h with h | h <;> subst h <;> exact ⟨rfl, rfl, rfl⟩

/-- C9 witness: the autocomplete handler for `works` with no `q` parameter
responds 400 and fetches nothing. -/
theorem handleAutocomplete_missing_q_400_witness :
    (handleAutocomplete .works none none none (fun _ => .timeoutFired)).1.status = 400
    ∧ (handleAutocomplete .works none none none (fun _ => .timeoutFired)).1.body
        = .obj [("error", .str "Missing required parameter: q")]
    ∧ (handleAutocomplete .works none none none (fun _ => .timeoutFired)).2 = [] :=
  handleAutocomplete_missing_q_400 .works none none none (fun _ => .timeoutFired) (Or.inl rfl)

/-- C10: in both the entity-list and single-entity handlers, a truthy
caller-supplied mailto always survives the polite-pool mutation; the
environment email is attached exactly when the caller supplies none (and
the environment value is truthy); and the built URL's `mailto` pair carries
the resolved value. -/
theorem handler_mailto_precedence (qp : QueryParams) (env : Option String) :
    (truthyS qp.mailto = true →
        (handleEntityListParams qp env).mailto = qp.mailto
        ∧ (handleSingleEntityParams qp env).mailto = qp.mailto)
    ∧ (truthyS qp.mailto = false → truthyS env = true →
        (handleEntityListParams qp env).mailto = env
        ∧ (handleSingleEntityParams qp env).mailto = env)
    ∧ (truthyS qp.mailto = false → truthyS env = false →
        (handleEntityListParams qp env).mailto = qp.mailto
        ∧ (handleSingleEntityParams qp env).mailto = qp.mailto)
    ∧ getVal (QueryBuilder.buildFromParamsPairs (handleEntityListParams qp env)) "mailto"
        = (if truthyS (resolveMailto qp.mailto env) then
            some ((resolveMailto qp.mailto env).getD "") else none) := by
  refine ⟨fun h1 => ?_, fun h1 h2 => ?_, fun h1 h2 => ?_, ?_⟩
  · constructor <;> simp [handleEntityListParams, handleSingleEntityParams, resolveMailto, h1]
  · constructor <;> simp [handleEntityListParams, handleSingleEntityParams, resolveMailto, h1, h2]
  · constructor <;> simp [handleEntityListParams, handleSingleEntityParams, resolveMailto, h1, h2]
  · rw [buildFromParamsPairs_eq_canonical]
    simp [canonicalPairs, getVal_append, getVal_optPair, handleEntityListParams]

/-- C10 witness: a caller-supplied mailto wins over the environment email,
and with no caller mailto the environment email is attached. -/
theorem handler_mailto_precedence_witness :
    (handleEntityListParams { mailto := some "me@caller.org" } (some "pool@env.org")).mailto
      = some "me@caller.org"
    ∧ (handleEntityListParams {} (some "pool@env.org")).mailto = some "pool@env.org" :=
  ⟨((handler_mailto_precedence { mailto := some "me@caller.org" } (some "pool@env.org")).1
      (by decide)).1,
   ((handler_mailto_precedence {} (some "pool@env.org")).2.1 (by decide) (by decide)).1⟩
